import Mathlib

set_option maxRecDepth 100000

/-!
Verification development for the stethoscope_demo_congress capture scripts.

The repository ingests binary frames from a sensor link and recovers
integrity-checked frames.  Four source files carry the frame logic:

* `src/ADC_reading_HAL/ADC_csv_gather.py` — serial capture, frames
  `[MAGIC 0x5A 0xA5][seq u32][nsamp u16][samples i16*n][crc16 CCITT]`.
* `src/ADC_HAL_reduceclipping/ADC_readcsv_reducedclipping.py` — serial
  capture with an extra `gap_cycles u32` header field.
* `src/2khz_RPC_sampling/RPC_capture.py` — blob (RPC) capture, frames
  `[count u16][seq u32][samples u16*n][crc16 IBM]`.
* `src/RPCtests/RPC_sample_csv.py` — blob capture, interleaved-timestamp
  frames `[count u8][t0 u32][(sample u16, delta u8)*n][crc16 IBM]`.

Bytes are modelled as `Nat` values below 256 in `List Nat`.  A byte source
is a finite list; `read_exact` returning `none` models the serial read
timing out (the Python code raises `TimeoutError` there).  Wall-clock
bounds are modelled by a fuel parameter on the capture loop.  CSV text
output and voltage scaling (floating point) are not modelled; delivery of
a frame to the consumer is recorded in an `accepted` list.
-/

/-- CCITT CRC inner round, from `crc16` in `ADC_csv_gather.py`
(identical in `ADC_readcsv_reducedclipping.py`):
`crc = (crc << 1) ^ 0x1021 if crc & 0x8000 else crc << 1`. -/
def crcRound (crc : Nat) : Nat :=
  if crc &&& 0x8000 ≠ 0 then (crc <<< 1) ^^^ 0x1021 else crc <<< 1

/-- `crc16` from `ADC_csv_gather.py`: init 0xFFFF, xor byte into the high
half, eight shift rounds, mask to 16 bits after each byte. -/
def crc16 (data : List Nat) : Nat :=
  data.foldl
    (fun crc b =>
      ((List.range 8).foldl (fun c _ => crcRound c) (crc ^^^ (b <<< 8))) &&& 0xFFFF)
    0xFFFF

/-- IBM CRC inner round, from `crc16_ibm` in `RPC_capture.py` (identical in
`RPC_sample_csv.py`): `crc = (crc >> 1) ^ 0xA001 if crc & 1 else crc >> 1`. -/
def ibmRound (crc : Nat) : Nat :=
  if crc &&& 1 ≠ 0 then (crc >>> 1) ^^^ 0xA001 else crc >>> 1

/-- `crc16_ibm` from `RPC_capture.py`: init 0, xor byte into the low half,
eight shift rounds, mask to 16 bits at the end. -/
def crc16_ibm (data : List Nat) : Nat :=
  (data.foldl (fun crc b => (List.range 8).foldl (fun c _ => ibmRound c) (crc ^^^ b)) 0)
    &&& 0xFFFF

/-- `struct.unpack_from("<H", l, i)`: little-endian 16-bit read. -/
def le16At (l : List Nat) (i : Nat) : Nat :=
  l.getD i 0 + 256 * l.getD (i + 1) 0

/-- `struct.unpack_from("<I", l, i)`: little-endian 32-bit read. -/
def le32At (l : List Nat) (i : Nat) : Nat :=
  l.getD i 0 + 256 * l.getD (i + 1) 0 + 65536 * l.getD (i + 2) 0
    + 16777216 * l.getD (i + 3) 0

/-- Little-endian encoding of a 16-bit value (used to build concrete wire
frames for theorems; the scripts receive such bytes from the sketch). -/
def le16enc (x : Nat) : List Nat :=
  [x % 256, x / 256 % 256]

/-- Little-endian encoding of a 32-bit value. -/
def le32enc (x : Nat) : List Nat :=
  [x % 256, x / 256 % 256, x / 65536 % 256, x / 16777216 % 256]

/-- Signed 16-bit reinterpretation of a `<H` value, as `struct` format `h`
does for the serial sample payloads. -/
def toInt16 (u : Nat) : Int :=
  if u < 32768 then (u : Int) else (u : Int) - 65536

/-- Python bitwise `s & m` for an int16 `s` and a mask below 2^16: Python
computes on the infinite twos-complement expansion, whose low 16 bits equal
`s mod 2^16` (`Int.emod` is non-negative for a positive modulus). -/
def pyAnd16 (s : Int) (m : Nat) : Nat :=
  (s % 65536).toNat &&& m

/-- `read_exact` from the serial scripts: pull exactly `n` bytes from the
source or fail.  A finite list models the source; `none` models the
`TimeoutError` raised when `ser.read` returns no data. -/
def read_exact (n : Nat) (s : List Nat) : Option (List Nat × List Nat) :=
  if n ≤ s.length then some (s.take n, s.drop n) else none

/-- Byte-by-byte scanner from `sync` in the serial scripts: slide over the
stream keeping the previous byte, stop right after `0x5A 0xA5`.  `prev` is
`none` at the start (the Python code starts with `prev = b""`). -/
def syncFrom : Option Nat → List Nat → Option (List Nat)
  | _, [] => none
  | prev, b :: rest =>
    if prev = some 0x5A ∧ b = 0xA5 then some rest else syncFrom (some b) rest

/-- `sync` from the serial scripts; exhausting the stream without a match
models the deadline expiring (the function returns `False`). -/
def sync (s : List Nat) : Option (List Nat) :=
  syncFrom none s

/-- The magic marker as transmitted, `MAGIC_B = bytes([0x5A, 0xA5])`. -/
def MAGIC_B : List Nat := [0x5A, 0xA5]

/-- Decode of the serial sample payload: `struct.unpack_from("<{n}h", ...)`
followed by `s & 0xFFF` per sample (12-bit mask) in `ADC_csv_gather.py`
and `ADC_readcsv_reducedclipping.py`. -/
def decodeSamples12 : List Nat → List Nat
  | b0 :: b1 :: rest => pyAnd16 (toInt16 (b0 + 256 * b1)) 0xFFF :: decodeSamples12 rest
  | _ => []

/-- The sequence-gap test, duplicated verbatim in all three capture loops:
`expected = (last_seq + 1) & 0xFFFFFFFF` and a gap is flagged when the new
sequence number differs (no gap when no frame was accepted yet). -/
def gapFlag (last : Option Nat) (seq : Nat) : Bool :=
  match last with
  | none => false
  | some l => decide (seq ≠ (l + 1) &&& 0xFFFFFFFF)

namespace Gather

/-- `FRAME_SAMPLES` in `ADC_csv_gather.py`. -/
def FRAME_SAMPLES : Nat := 512

/-- Result of one frame decode attempt inside the `run_capture` loop of
`ADC_csv_gather.py` (the body between reading the header and the sequence
bookkeeping). -/
inductive FrameTry where
  | timeoutErr : FrameTry
  | malformed (rest : List Nat) : FrameTry
  | crcFail (rest : List Nat) : FrameTry
  | ok (seq : Nat) (samples : List Nat) (rest : List Nat) : FrameTry
deriving DecidableEq

/-- Frame decode attempt from the `run_capture` loop of
`ADC_csv_gather.py`: read `seq(4) + nsamp(2)`, validate `nsamp`, read
payload and CRC, check the CCITT CRC over `MAGIC_B + hdr + payload`
against the transmitted little-endian value. -/
def attemptFrame (stream : List Nat) : FrameTry :=
  match read_exact 6 stream with
  | none => .timeoutErr
  | some (hdr, r1) =>
    let nsamp := le16At hdr 4
    if nsamp = 0 ∨ nsamp > FRAME_SAMPLES then .malformed r1
    else
      match read_exact (nsamp * 2) r1 with
      | none => .timeoutErr
      | some (payload, r2) =>
        match read_exact 2 r2 with
        | none => .timeoutErr
        | some (crcRaw, r3) =>
          if crc16 (MAGIC_B ++ hdr ++ payload) ≠ le16At crcRaw 0 then .crcFail r3
          else .ok (le32At hdr 0) (decodeSamples12 payload) r3

/-- Session state of `run_capture` in `ADC_csv_gather.py`: the counters,
the last accepted sequence number, and the frames delivered to the CSV
writer (sequence number with masked samples; the voltage column is a pure
per-sample float transform and is not modelled). -/
structure CapState where
  lastSeq : Option Nat
  total : Nat
  badCrc : Nat
  seqErrors : Nat
  accepted : List (Nat × List Nat)
deriving DecidableEq

/-- The state before the capture loop starts. -/
def initState : CapState :=
  { lastSeq := none, total := 0, badCrc := 0, seqErrors := 0, accepted := [] }

/-- Outcome of one iteration of the capture loop: `timeout` models the
`TimeoutError` escaping to the session-level handler (the loop ends),
`syncFail` models `sync` returning `False` (the loop breaks), `cont`
continues with the remaining stream. -/
inductive StepRes where
  | timeout (st : CapState) : StepRes
  | syncFail (st : CapState) : StepRes
  | cont (stream : List Nat) (st : CapState) : StepRes
deriving DecidableEq

/-- The session state carried by a step outcome. -/
def StepRes.state : StepRes → CapState
  | .timeout st => st
  | .syncFail st => st
  | .cont _ st => st

/-- `if not sync(ser, timeout=2.0): break` followed by `continue`. -/
def resyncWith (r : List Nat) (st : CapState) : StepRes :=
  match sync r with
  | none => .syncFail st
  | some r2 => .cont r2 st

/-- Sequence bookkeeping and delivery for an accepted frame: bump the gap
counter when `gapFlag` fires, set `last_seq` to the new value
unconditionally, write the samples out. -/
def acceptState (st : CapState) (seq : Nat) (samples : List Nat) : CapState :=
  { st with
    seqErrors := st.seqErrors + (if gapFlag st.lastSeq seq then 1 else 0)
    lastSeq := some seq
    accepted := st.accepted ++ [(seq, samples)]
    total := st.total + samples.length }

/-- One iteration of the `while` body of `run_capture` in
`ADC_csv_gather.py`: attempt a frame; on a bad count resync (uncounted);
on a CRC mismatch count `bad_crc` and resync; on acceptance do the
sequence-gap bookkeeping, deliver the samples, then read the next magic
bytes to stay framed. -/
def capStep (stream : List Nat) (st : CapState) : StepRes :=
  match attemptFrame stream with
  | .timeoutErr => .timeout st
  | .malformed r => resyncWith r st
  | .crcFail r => resyncWith r { st with badCrc := st.badCrc + 1 }
  | .ok seq samples r =>
    let st2 := acceptState st seq samples
    match read_exact 2 r with
    | none => .timeout st2
    | some (nxt, r2) => if nxt = MAGIC_B then .cont r2 st2 else resyncWith r2 st2

/-- The capture loop of `run_capture`; fuel models the wall-clock duration
bound (`while time.monotonic() < end_time`). -/
def runLoop : Nat → List Nat → CapState → CapState
  | 0, _, st => st
  | fuel + 1, stream, st =>
    match capStep stream st with
    | .timeout st2 => st2
    | .syncFail st2 => st2
    | .cont s2 st2 => runLoop fuel s2 st2

/-- `run_capture` from `ADC_csv_gather.py`: initial `sync` (returning
`none` models the startup sync timing out, in which case the session ends
before the loop), then the capture loop. -/
def run_capture (fuel : Nat) (stream : List Nat) : Option CapState :=
  match sync stream with
  | none => none
  | some r => some (runLoop fuel r initState)

end Gather

namespace Clip

/-- `FRAME_SAMPLES` in `ADC_readcsv_reducedclipping.py`. -/
def FRAME_SAMPLES : Nat := 16384

/-- Result of one frame decode attempt inside the `run_capture` loop of
`ADC_readcsv_reducedclipping.py`; the accepted frame also carries the
`gap_cycles` header field. -/
inductive FrameTry where
  | timeoutErr : FrameTry
  | malformed (rest : List Nat) : FrameTry
  | crcFail (rest : List Nat) : FrameTry
  | ok (seq gapCyc : Nat) (samples : List Nat) (rest : List Nat) : FrameTry
deriving DecidableEq

/-- Frame decode attempt from the `run_capture` loop of
`ADC_readcsv_reducedclipping.py`: read `seq(4) + nsamp(2) + gap_cycles(4)`,
validate `nsamp`, read payload and CRC, check the CCITT CRC over
`MAGIC_B + hdr + payload`. -/
def attemptFrame (stream : List Nat) : FrameTry :=
  match read_exact 10 stream with
  | none => .timeoutErr
  | some (hdr, r1) =>
    let nsamp := le16At hdr 4
    if nsamp = 0 ∨ nsamp > FRAME_SAMPLES then .malformed r1
    else
      match read_exact (nsamp * 2) r1 with
      | none => .timeoutErr
      | some (payload, r2) =>
        match read_exact 2 r2 with
        | none => .timeoutErr
        | some (crcRaw, r3) =>
          if crc16 (MAGIC_B ++ hdr ++ payload) ≠ le16At crcRaw 0 then .crcFail r3
          else .ok (le32At hdr 0) (le32At hdr 6) (decodeSamples12 payload) r3

/-- Session state of `run_capture` in `ADC_readcsv_reducedclipping.py`.
Delivered frames carry sequence number, `gap_cycles`, and the masked
samples; the gap-time accumulation and per-row gap flag are float or
presentational output and are not modelled. -/
structure CapState where
  lastSeq : Option Nat
  total : Nat
  badCrc : Nat
  seqErrors : Nat
  accepted : List (Nat × Nat × List Nat)
deriving DecidableEq

/-- The state before the capture loop starts. -/
def initState : CapState :=
  { lastSeq := none, total := 0, badCrc := 0, seqErrors := 0, accepted := [] }

/-- Outcome of one iteration of the capture loop, as in the other serial
script. -/
inductive StepRes where
  | timeout (st : CapState) : StepRes
  | syncFail (st : CapState) : StepRes
  | cont (stream : List Nat) (st : CapState) : StepRes
deriving DecidableEq

/-- The session state carried by a step outcome. -/
def StepRes.state : StepRes → CapState
  | .timeout st => st
  | .syncFail st => st
  | .cont _ st => st

/-- `if not sync(ser, timeout=2.0): break` followed by `continue`. -/
def resyncWith (r : List Nat) (st : CapState) : StepRes :=
  match sync r with
  | none => .syncFail st
  | some r2 => .cont r2 st

/-- Sequence bookkeeping and delivery for an accepted frame, as in the
other serial script but also recording `gap_cycles`. -/
def acceptState (st : CapState) (seq gapCyc : Nat) (samples : List Nat) : CapState :=
  { st with
    seqErrors := st.seqErrors + (if gapFlag st.lastSeq seq then 1 else 0)
    lastSeq := some seq
    accepted := st.accepted ++ [(seq, gapCyc, samples)]
    total := st.total + samples.length }

/-- One iteration of the `while` body of `run_capture` in
`ADC_readcsv_reducedclipping.py`. -/
def capStep (stream : List Nat) (st : CapState) : StepRes :=
  match attemptFrame stream with
  | .timeoutErr => .timeout st
  | .malformed r => resyncWith r st
  | .crcFail r => resyncWith r { st with badCrc := st.badCrc + 1 }
  | .ok seq gapCyc samples r =>
    let st2 := acceptState st seq gapCyc samples
    match read_exact 2 r with
    | none => .timeout st2
    | some (nxt, r2) => if nxt = MAGIC_B then .cont r2 st2 else resyncWith r2 st2

end Clip

/-- ASCII hex-digit test `b in set(b"0123456789abcdefABCDEF")` from the
blob parsers. -/
def isHexChar (b : Nat) : Bool :=
  (48 ≤ b && b ≤ 57) || (97 ≤ b && b ≤ 102) || (65 ≤ b && b ≤ 70)

/-- Condition under which the blob parsers reinterpret the response as hex
text: `raw and len(raw) % 2 == 0 and all(b in hex_chars for b in raw)`. -/
def isHexText (resp : List Nat) : Bool :=
  !resp.isEmpty && resp.length % 2 = 0 && resp.all isHexChar

/-- Numeric value of an ASCII hex digit. -/
def hexVal (b : Nat) : Nat :=
  if 48 ≤ b ∧ b ≤ 57 then b - 48 else if 97 ≤ b then b - 87 else b - 55

/-- `bytes.fromhex`: consecutive digit pairs become bytes.  On an
even-length all-hex-digit string this never raises, so the `except
ValueError` fallback in the scripts is unreachable. -/
def hexPairDecode : List Nat → List Nat
  | c1 :: c2 :: rest => (16 * hexVal c1 + hexVal c2) :: hexPairDecode rest
  | _ => []

/-- Normalisation applied by both blob parsers to a bytes response before
frame parsing: even-length all-hex-digit responses are decoded as hex
text, everything else is kept as raw bytes. -/
def normalizeResp (resp : List Nat) : List Nat :=
  if isHexText resp then hexPairDecode resp else resp

namespace Rpc

/-- Sample extraction from `parse_frame` in `RPC_capture.py`:
`struct.unpack_from("<H", buf, 6 + i * 2)[0] & 0x3FFF` for each `i`. -/
def rpcSamples (buf : List Nat) (count : Nat) : List Nat :=
  (List.range count).map (fun i => le16At buf (6 + 2 * i) &&& 0x3FFF)

/-- `if buf and buf[0] == 0x21: buf = buf[1:]` from `RPC_capture.py`. -/
def strip21 : List Nat → List Nat
  | b :: rest => if b = 0x21 then rest else b :: rest
  | [] => []

/-- The body of `parse_frame` in `RPC_capture.py` after the response has
been normalised to a byte buffer: strip the overflow marker, check the
minimum length, read `count` and `seq`, check the exact length, check the
IBM CRC over all but the trailing two bytes, extract the masked samples. -/
def parseBuf (buf0 : List Nat) : Option Nat × Option (List Nat) :=
  let buf := strip21 buf0
  if buf.length < 8 then (none, none)
  else
    let count := le16At buf 0
    let seq := le32At buf 2
    if buf.length ≠ 6 + count * 2 + 2 then (none, none)
    else if crc16_ibm (buf.take (buf.length - 2)) ≠ le16At buf (buf.length - 2) then (none, none)
    else (some seq, some (rpcSamples buf count))

/-- `parse_frame` from `RPC_capture.py` on a bytes response (the non-bytes
branch converts other response types and is outside the byte model):
empty responses fail immediately, otherwise the normalised buffer is
parsed. -/
def parse_frame (resp : List Nat) : Option Nat × Option (List Nat) :=
  if resp.isEmpty then (none, none) else parseBuf (normalizeResp resp)

/-- Session state of `run_capture` in `RPC_capture.py`. -/
structure RpcState where
  lastSeq : Option Nat
  total : Nat
  bad : Nat
  empty : Nat
  seqErrors : Nat
  accepted : List (Nat × List Nat)
deriving DecidableEq

/-- The state before the capture loop starts. -/
def initState : RpcState :=
  { lastSeq := none, total := 0, bad := 0, empty := 0, seqErrors := 0, accepted := [] }

/-- One iteration of the `while` body of `run_capture` in
`RPC_capture.py`: `samples is None` counts as `empty`, then `seq is None`
counts as `bad`, otherwise sequence bookkeeping and delivery. -/
def rpcStep (st : RpcState) (resp : List Nat) : RpcState :=
  match parse_frame resp with
  | (_, none) => { st with empty := st.empty + 1 }
  | (none, some _) => { st with bad := st.bad + 1 }
  | (some seq, some samples) =>
    { st with
      seqErrors := st.seqErrors + (if gapFlag st.lastSeq seq then 1 else 0)
      lastSeq := some seq
      accepted := st.accepted ++ [(seq, samples)]
      total := st.total + samples.length }

end Rpc

namespace Ecg

/-- `MAX_SAMPLES` in `RPC_sample_csv.py`. -/
def MAX_SAMPLES : Nat := 255

/-- The per-sample loop of `parse_frame` in `RPC_sample_csv.py`: read a
16-bit sample, advance the running timestamp by the 8-bit delta, repeat
`count` times from offset 5. -/
def scanSamples : Nat → List Nat → Nat → Nat → List Nat × List Nat
  | 0, _, _, _ => ([], [])
  | k + 1, buf, off, prevT =>
    let s := le16At buf off
    let t := prevT + buf.getD (off + 2) 0
    let (ss, ts) := scanSamples k buf (off + 3) t
    (s :: ss, t :: ts)

/-- `if buf and buf[0] == 0x21 and len(buf) > 1: buf = buf[1:]` from
`RPC_sample_csv.py` (unlike `RPC_capture.py` it refuses to strip the
last remaining byte). -/
def strip21 : List Nat → List Nat
  | b :: c :: rest => if b = 0x21 then c :: rest else b :: c :: rest
  | l => l

/-- The body of `parse_frame` in `RPC_sample_csv.py` after normalisation:
strip the overflow marker, check minimum length, validate the 8-bit
`count` against `[1, MAX_SAMPLES]`, check the exact length
`1 + 4 + count * 3 + 2`, check the IBM CRC over all but the trailing two
bytes against `buf[-2] | buf[-1] << 8`, then scan the interleaved
sample/delta pairs accumulating absolute timestamps from `t0`. -/
def parseBuf (buf0 : List Nat) : List Nat × List Nat :=
  let buf := strip21 buf0
  if buf.length < 7 then ([], [])
  else
    let count := buf.getD 0 0
    if count = 0 ∨ count > MAX_SAMPLES then ([], [])
    else if buf.length ≠ 1 + 4 + count * 3 + 2 then ([], [])
    else if crc16_ibm (buf.take (buf.length - 2)) ≠
        buf.getD (buf.length - 2) 0 + 256 * buf.getD (buf.length - 1) 0 then ([], [])
    else scanSamples count buf 5 (le32At buf 1)

/-- `parse_frame` from `RPC_sample_csv.py` on a bytes response. -/
def parse_frame (resp : List Nat) : List Nat × List Nat :=
  if resp.isEmpty then ([], []) else parseBuf (normalizeResp resp)

/-- Session state of `run_capture` in `RPC_sample_csv.py`: a single `bad`
counter for every failed response, delivered frames as
(samples, timestamps) pairs. -/
structure EcgState where
  total : Nat
  bad : Nat
  accepted : List (List Nat × List Nat)
deriving DecidableEq

/-- The state before the capture loop starts. -/
def initState : EcgState :=
  { total := 0, bad := 0, accepted := [] }

/-- One iteration of the `while` body of `run_capture` in
`RPC_sample_csv.py`: `if not samples: bad += 1` else deliver. -/
def ecgStep (st : EcgState) (resp : List Nat) : EcgState :=
  let (samples, timestamps) := parse_frame resp
  if samples.isEmpty then { st with bad := st.bad + 1 }
  else
    { st with
      total := st.total + samples.length
      accepted := st.accepted ++ [(samples, timestamps)] }

end Ecg

/-- Wire encoding of a serial frame body (everything after the magic) for
the `ADC_csv_gather.py` format, used to build inputs for the theorems:
`seq(4) + nsamp(2) + payload + crc16(2)` with the CCITT CRC over
`MAGIC_B + hdr + payload`. -/
def frameBody (seq : Nat) (payload : List Nat) : List Nat :=
  let hdr := le32enc seq ++ le16enc (payload.length / 2)
  hdr ++ payload ++ le16enc (crc16 (MAGIC_B ++ hdr ++ payload))

/-! ### Helper lemmas -/

lemma read_exact_of_length {n : Nat} (a b : List Nat) (h : a.length = n) :
    read_exact n (a ++ b) = some (a, b) := by
  subst h
  simp [read_exact, List.take_left, List.drop_left]

lemma read_exact_short {n : Nat} {s : List Nat} (h : s.length < n) :
    read_exact n s = none := by
  simp only [read_exact, ite_eq_right_iff]
  omega

lemma crc16_fold_lt :
    ∀ (d : List Nat) (init : Nat), init < 65536 →
      d.foldl
        (fun crc b =>
          ((List.range 8).foldl (fun c _ => crcRound c) (crc ^^^ (b <<< 8))) &&& 0xFFFF)
        init < 65536
  | [], _, h => h
  | _ :: rest, _, _ =>
    crc16_fold_lt rest _ (lt_of_le_of_lt Nat.and_le_right (by norm_num))

lemma crc16_lt (d : List Nat) : crc16 d < 65536 :=
  crc16_fold_lt d 0xFFFF (by norm_num)

lemma le16At_enc (x : Nat) (t : List Nat) (h : x < 65536) :
    le16At (le16enc x ++ t) 0 = x := by
  simp [le16At, le16enc]
  omega

lemma le16At_enc_self (x : Nat) (h : x < 65536) : le16At (le16enc x) 0 = x := by
  simp [le16At, le16enc]
  omega

lemma le32At_enc (x : Nat) (t : List Nat) (h : x < 4294967296) :
    le32At (le32enc x ++ t) 0 = x := by
  simp [le32At, le32enc]
  omega

lemma le16At_hdr4 (s n : Nat) (h : n < 65536) :
    le16At (le32enc s ++ le16enc n) 4 = n := by
  simp [le16At, le32enc, le16enc]
  omega

lemma and32_mod (n : Nat) : n &&& 4294967295 = n % 4294967296 := by
  have h := Nat.and_pow_two_sub_one_eq_mod n 32
  norm_num at h
  omega

/-- The sequence-gap condition in the words of the spec: some frame was
accepted before and the new number is not the successor modulo 2^32. -/
def gapSpec (last : Option Nat) (seq : Nat) : Prop :=
  ∃ l, last = some l ∧ seq ≠ (l + 1) % 4294967296

lemma gapFlag_iff (last : Option Nat) (seq : Nat) :
    gapFlag last seq = true ↔ gapSpec last seq := by
  cases last with
  | none => simp [gapFlag, gapSpec]
  | some l => simp [gapFlag, gapSpec, and32_mod]

lemma gather_attemptFrame_split (hdr payload crcb rest : List Nat)
    (hh : hdr.length = 6) (hn0 : le16At hdr 4 ≠ 0) (hn : le16At hdr 4 ≤ 512)
    (hp : payload.length = le16At hdr 4 * 2) (hc : crcb.length = 2) :
    Gather.attemptFrame (hdr ++ (payload ++ (crcb ++ rest)))
      = if crc16 (MAGIC_B ++ hdr ++ payload) = le16At crcb 0
        then .ok (le32At hdr 0) (decodeSamples12 payload) rest
        else .crcFail rest := by
  have hcond : ¬ (le16At hdr 4 = 0 ∨ le16At hdr 4 > Gather.FRAME_SAMPLES) := by
    simp only [Gather.FRAME_SAMPLES]
    omega
  simp only [Gather.attemptFrame, read_exact_of_length hdr _ hh]
  rw [if_neg hcond]
  simp only [read_exact_of_length payload _ hp, read_exact_of_length crcb _ hc]
  rw [ite_not]

lemma gather_attemptFrame_body (s : Nat) (payload rest : List Nat)
    (hs : s < 4294967296) (hev : payload.length % 2 = 0)
    (hnz : payload.length ≠ 0) (hle : payload.length ≤ 1024) :
    Gather.attemptFrame (frameBody s payload ++ rest)
      = .ok s (decodeSamples12 payload) rest := by
  have hn16 : payload.length / 2 < 65536 := by omega
  have h4 : le16At (le32enc s ++ le16enc (payload.length / 2)) 4 = payload.length / 2 :=
    le16At_hdr4 _ _ hn16
  have hh : (le32enc s ++ le16enc (payload.length / 2)).length = 6 := by
    simp [le32enc, le16enc]
  have hcrc := crc16_lt (MAGIC_B ++ (le32enc s ++ le16enc (payload.length / 2)) ++ payload)
  simp only [frameBody]
  rw [List.append_assoc, List.append_assoc]
  rw [gather_attemptFrame_split _ _ _ _ hh (by rw [h4]; omega) (by rw [h4]; omega)
    (by rw [h4]; omega) (by simp [le16enc])]
  rw [le16At_enc_self _ hcrc, if_pos rfl, le32At_enc _ _ hs]

lemma gather_capStep_ok {stream : List Nat} {seq : Nat} {samples r : List Nat}
    (st : Gather.CapState) (h : Gather.attemptFrame stream = .ok seq samples r) :
    Gather.capStep stream st
      = match read_exact 2 r with
        | none => .timeout (Gather.acceptState st seq samples)
        | some (nxt, r2) =>
          if nxt = MAGIC_B then .cont r2 (Gather.acceptState st seq samples)
          else Gather.resyncWith r2 (Gather.acceptState st seq samples) := by
  unfold Gather.capStep
  rw [h]

lemma gather_capStep_timeoutErr {stream : List Nat} (st : Gather.CapState)
    (h : Gather.attemptFrame stream = .timeoutErr) :
    Gather.capStep stream st = .timeout st := by
  unfold Gather.capStep
  rw [h]

lemma gather_capStep_malformed {stream : List Nat} {r : List Nat} (st : Gather.CapState)
    (h : Gather.attemptFrame stream = .malformed r) :
    Gather.capStep stream st = Gather.resyncWith r st := by
  unfold Gather.capStep
  rw [h]

lemma gather_capStep_crcFail {stream : List Nat} {r : List Nat} (st : Gather.CapState)
    (h : Gather.attemptFrame stream = .crcFail r) :
    Gather.capStep stream st = Gather.resyncWith r { st with badCrc := st.badCrc + 1 } := by
  unfold Gather.capStep
  rw [h]

/-- Case analysis on one iteration of the `ADC_csv_gather.py` loop: either
the attempt is rejected and the sequence state, the gap counter, and the
delivered output are untouched, or a frame is accepted and the state is
exactly the accept update. -/
lemma gather_step_inv (stream : List Nat) (st : Gather.CapState) :
    ((Gather.capStep stream st).state.accepted = st.accepted ∧
      (Gather.capStep stream st).state.lastSeq = st.lastSeq ∧
      (Gather.capStep stream st).state.seqErrors = st.seqErrors ∧
      (Gather.capStep stream st).state.total = st.total)
    ∨ ∃ seq samples,
        (Gather.capStep stream st).state = Gather.acceptState st seq samples := by
  cases h : Gather.attemptFrame stream with
  | timeoutErr =>
    left
    rw [gather_capStep_timeoutErr st h]
    exact ⟨rfl, rfl, rfl, rfl⟩
  | malformed r =>
    left
    rw [gather_capStep_malformed st h]
    unfold Gather.resyncWith
    cases sync r <;> exact ⟨rfl, rfl, rfl, rfl⟩
  | crcFail r =>
    left
    rw [gather_capStep_crcFail st h]
    unfold Gather.resyncWith
    cases sync r <;> exact ⟨rfl, rfl, rfl, rfl⟩
  | ok seq samples r =>
    right
    refine ⟨seq, samples, ?_⟩
    rw [gather_capStep_ok st h]
    cases hr : read_exact 2 r with
    | none => rfl
    | some p =>
      obtain ⟨nxt, r2⟩ := p
      by_cases hm : nxt = MAGIC_B
      · simp only [if_pos hm]
        rfl
      · simp only [if_neg hm]
        unfold Gather.resyncWith
        cases sync r2 <;> rfl

lemma clip_capStep_ok {stream : List Nat} {seq gapCyc : Nat} {samples r : List Nat}
    (st : Clip.CapState) (h : Clip.attemptFrame stream = .ok seq gapCyc samples r) :
    Clip.capStep stream st
      = match read_exact 2 r with
        | none => .timeout (Clip.acceptState st seq gapCyc samples)
        | some (nxt, r2) =>
          if nxt = MAGIC_B then .cont r2 (Clip.acceptState st seq gapCyc samples)
          else Clip.resyncWith r2 (Clip.acceptState st seq gapCyc samples) := by
  unfold Clip.capStep
  rw [h]

lemma clip_capStep_timeoutErr {stream : List Nat} (st : Clip.CapState)
    (h : Clip.attemptFrame stream = .timeoutErr) :
    Clip.capStep stream st = .timeout st := by
  unfold Clip.capStep
  rw [h]

lemma clip_capStep_malformed {stream : List Nat} {r : List Nat} (st : Clip.CapState)
    (h : Clip.attemptFrame stream = .malformed r) :
    Clip.capStep stream st = Clip.resyncWith r st := by
  unfold Clip.capStep
  rw [h]

lemma clip_capStep_crcFail {stream : List Nat} {r : List Nat} (st : Clip.CapState)
    (h : Clip.attemptFrame stream = .crcFail r) :
    Clip.capStep stream st = Clip.resyncWith r { st with badCrc := st.badCrc + 1 } := by
  unfold Clip.capStep
  rw [h]

lemma clip_step_inv (stream : List Nat) (st : Clip.CapState) :
    ((Clip.capStep stream st).state.accepted = st.accepted ∧
      (Clip.capStep stream st).state.lastSeq = st.lastSeq ∧
      (Clip.capStep stream st).state.seqErrors = st.seqErrors ∧
      (Clip.capStep stream st).state.total = st.total)
    ∨ ∃ seq gapCyc samples,
        (Clip.capStep stream st).state = Clip.acceptState st seq gapCyc samples := by
  cases h : Clip.attemptFrame stream with
  | timeoutErr =>
    left
    rw [clip_capStep_timeoutErr st h]
    exact ⟨rfl, rfl, rfl, rfl⟩
  | malformed r =>
    left
    rw [clip_capStep_malformed st h]
    unfold Clip.resyncWith
    cases sync r <;> exact ⟨rfl, rfl, rfl, rfl⟩
  | crcFail r =>
    left
    rw [clip_capStep_crcFail st h]
    unfold Clip.resyncWith
    cases sync r <;> exact ⟨rfl, rfl, rfl, rfl⟩
  | ok seq gapCyc samples r =>
    right
    refine ⟨seq, gapCyc, samples, ?_⟩
    rw [clip_capStep_ok st h]
    cases hr : read_exact 2 r with
    | none => rfl
    | some p =>
      obtain ⟨nxt, r2⟩ := p
      by_cases hm : nxt = MAGIC_B
      · simp only [if_pos hm]
        rfl
      · simp only [if_neg hm]
        unfold Clip.resyncWith
        cases sync r2 <;> rfl

/-- `parse_frame` in `RPC_capture.py` either fails with both components
`None` or succeeds with both present: no path produces a sequence number
without samples or samples without a sequence number. -/
lemma rpc_parse_shape (resp : List Nat) :
    Rpc.parse_frame resp = (none, none)
    ∨ ∃ s v, Rpc.parse_frame resp = (some s, some v) := by
  unfold Rpc.parse_frame Rpc.parseBuf
  by_cases h0 : resp.isEmpty
  · simp [h0]
  · simp only [h0, if_false]
    by_cases h1 : (Rpc.strip21 (normalizeResp resp)).length < 8
    · rw [if_pos h1]
      left
      rfl
    · rw [if_neg h1]
      by_cases h2 : (Rpc.strip21 (normalizeResp resp)).length
          = 6 + le16At (Rpc.strip21 (normalizeResp resp)) 0 * 2 + 2
      · rw [if_neg (by omega : ¬ (Rpc.strip21 (normalizeResp resp)).length
            ≠ 6 + le16At (Rpc.strip21 (normalizeResp resp)) 0 * 2 + 2)]
        by_cases h3 : crc16_ibm
              (List.take ((Rpc.strip21 (normalizeResp resp)).length - 2)
                (Rpc.strip21 (normalizeResp resp)))
            = le16At (Rpc.strip21 (normalizeResp resp))
                ((Rpc.strip21 (normalizeResp resp)).length - 2)
        · rw [if_neg (by omega : ¬ crc16_ibm
              (List.take ((Rpc.strip21 (normalizeResp resp)).length - 2)
                (Rpc.strip21 (normalizeResp resp)))
            ≠ le16At (Rpc.strip21 (normalizeResp resp))
                ((Rpc.strip21 (normalizeResp resp)).length - 2))]
          right
          exact ⟨_, _, rfl⟩
        · rw [if_pos h3]
          left
          rfl
      · rw [if_pos h2]
        left
        rfl

/-- Case analysis on one iteration of the `RPC_capture.py` loop. -/
lemma rpc_step_inv (st : Rpc.RpcState) (resp : List Nat) :
    (Rpc.rpcStep st resp = { st with empty := st.empty + 1 })
    ∨ ∃ seq samples,
        Rpc.parse_frame resp = (some seq, some samples) ∧
        Rpc.rpcStep st resp =
          { st with
            seqErrors := st.seqErrors + (if gapFlag st.lastSeq seq then 1 else 0)
            lastSeq := some seq
            accepted := st.accepted ++ [(seq, samples)]
            total := st.total + samples.length } := by
  rcases rpc_parse_shape resp with h | ⟨s, v, h⟩
  · left
    unfold Rpc.rpcStep
    rw [h]
  · right
    refine ⟨s, v, h, ?_⟩
    unfold Rpc.rpcStep
    rw [h]

/-- `lockFree prev g` says that scanning `g` with previous byte `prev`
never observes the pair `0x5A 0xA5`: the synchronizer finds no match
inside `g`. -/
def lockFree : Option Nat → List Nat → Bool
  | _, [] => true
  | prev, b :: rest =>
    if prev = some 0x5A ∧ b = 0xA5 then false else lockFree (some b) rest

lemma syncFrom_skip (g : List Nat) : ∀ (prev : Option Nat) (rest : List Nat),
    lockFree prev g = true →
    syncFrom prev (g ++ (0x5A :: 0xA5 :: rest)) = some rest := by
  induction g with
  | nil =>
    intro prev rest _
    have h1 : ¬ (prev = some 0x5A ∧ (0x5A : Nat) = 0xA5) := by
      rintro ⟨-, h⟩
      norm_num at h
    simp [syncFrom, h1]
  | cons b g ih =>
    intro prev rest h
    have hc : ¬ (prev = some 0x5A ∧ b = 0xA5) := by
      intro hcon
      simp only [lockFree, if_pos hcon] at h
      exact Bool.noConfusion h
    simp only [List.cons_append, syncFrom, if_neg hc]
    refine ih (some b) rest ?_
    simpa only [lockFree, if_neg hc] using h

lemma sync_skip (g rest : List Nat) (h : lockFree none g = true) :
    sync (g ++ (MAGIC_B ++ rest)) = some rest :=
  syncFrom_skip g none rest h

lemma gather_capStep_body (s : Nat) (payload rest : List Nat) (st : Gather.CapState)
    (hs : s < 4294967296) (hev : payload.length % 2 = 0)
    (hnz : payload.length ≠ 0) (hle : payload.length ≤ 1024) :
    Gather.capStep (frameBody s payload ++ rest) st
      = match read_exact 2 rest with
        | none => .timeout (Gather.acceptState st s (decodeSamples12 payload))
        | some (nxt, r2) =>
          if nxt = MAGIC_B then .cont r2 (Gather.acceptState st s (decodeSamples12 payload))
          else Gather.resyncWith r2 (Gather.acceptState st s (decodeSamples12 payload)) :=
  gather_capStep_ok st (gather_attemptFrame_body s payload rest hs hev hnz hle)

lemma gather_attemptFrame_stall (hdr r : List Nat) (hh : hdr.length = 6)
    (hn0 : le16At hdr 4 ≠ 0) (hn : le16At hdr 4 ≤ 512)
    (hshort : r.length < le16At hdr 4 * 2 + 2) :
    Gather.attemptFrame (hdr ++ r) = .timeoutErr := by
  have hcond : ¬ (le16At hdr 4 = 0 ∨ le16At hdr 4 > Gather.FRAME_SAMPLES) := by
    simp only [Gather.FRAME_SAMPLES]
    omega
  simp only [Gather.attemptFrame, read_exact_of_length hdr _ hh]
  rw [if_neg hcond]
  by_cases hp : le16At hdr 4 * 2 ≤ r.length
  · have hdl : (r.drop (le16At hdr 4 * 2)).length < 2 := by
      rw [List.length_drop]
      omega
    have hread : read_exact (le16At hdr 4 * 2) r
        = some (r.take (le16At hdr 4 * 2), r.drop (le16At hdr 4 * 2)) := by
      rw [read_exact, if_pos hp]
    simp only [hread, read_exact_short hdl]
  · rw [read_exact_short (by omega : r.length < le16At hdr 4 * 2)]

lemma gather_attemptFrame_hdr_stall (s : List Nat) (h : s.length < 6) :
    Gather.attemptFrame s = .timeoutErr := by
  simp only [Gather.attemptFrame, read_exact_short h]

lemma gather_runLoop_timeout (fuel : Nat) (stream : List Nat)
    (st st2 : Gather.CapState) (h : Gather.capStep stream st = .timeout st2) :
    Gather.runLoop (fuel + 1) stream st = st2 := by
  simp only [Gather.runLoop, h]

lemma gather_runLoop_cont (fuel : Nat) (stream s2 : List Nat)
    (st st2 : Gather.CapState) (h : Gather.capStep stream st = .cont s2 st2) :
    Gather.runLoop (fuel + 1) stream st = Gather.runLoop fuel s2 st2 := by
  simp only [Gather.runLoop, h]

lemma gather_two_frames (fuel : Nat) (g : List Nat) (s1 s2 : Nat) (p1 p2 : List Nat)
    (hg : lockFree none g = true)
    (hs1 : s1 < 4294967296) (hev1 : p1.length % 2 = 0)
    (hnz1 : p1.length ≠ 0) (hle1 : p1.length ≤ 1024)
    (hs2 : s2 < 4294967296) (hev2 : p2.length % 2 = 0)
    (hnz2 : p2.length ≠ 0) (hle2 : p2.length ≤ 1024) :
    (Gather.run_capture (fuel + 2)
        (g ++ (MAGIC_B ++ (frameBody s1 p1 ++ (MAGIC_B ++ frameBody s2 p2))))).map
      Gather.CapState.accepted
      = some [(s1, decodeSamples12 p1), (s2, decodeSamples12 p2)] := by
  have h1 : Gather.capStep (frameBody s1 p1 ++ (MAGIC_B ++ frameBody s2 p2))
        Gather.initState
      = .cont (frameBody s2 p2)
          (Gather.acceptState Gather.initState s1 (decodeSamples12 p1)) := by
    rw [gather_capStep_body s1 p1 (MAGIC_B ++ frameBody s2 p2)
      Gather.initState hs1 hev1 hnz1 hle1]
    simp only [read_exact_of_length MAGIC_B (frameBody s2 p2)
      (show MAGIC_B.length = 2 from rfl), if_true]
  have h2 : Gather.capStep (frameBody s2 p2)
        (Gather.acceptState Gather.initState s1 (decodeSamples12 p1))
      = .timeout (Gather.acceptState
          (Gather.acceptState Gather.initState s1 (decodeSamples12 p1))
          s2 (decodeSamples12 p2)) := by
    have step2 := gather_capStep_body s2 p2 []
      (Gather.acceptState Gather.initState s1 (decodeSamples12 p1)) hs2 hev2 hnz2 hle2
    rw [List.append_nil] at step2
    rw [step2]
    rfl
  unfold Gather.run_capture
  simp only [sync_skip _ _ hg]
  have ha : Gather.runLoop (fuel + 2)
        (frameBody s1 p1 ++ (MAGIC_B ++ frameBody s2 p2)) Gather.initState
      = Gather.runLoop (fuel + 1) (frameBody s2 p2)
          (Gather.acceptState Gather.initState s1 (decodeSamples12 p1)) :=
    gather_runLoop_cont (fuel + 1) _ _ _ _ h1
  rw [ha, gather_runLoop_timeout fuel _ _ _ h2]
  simp [Gather.acceptState, Gather.initState]

lemma gather_resync_state (r : List Nat) (st : Gather.CapState) :
    (Gather.resyncWith r st).state = st := by
  unfold Gather.resyncWith
  cases sync r <;> rfl

lemma clip_resync_state (r : List Nat) (st : Clip.CapState) :
    (Clip.resyncWith r st).state = st := by
  unfold Clip.resyncWith
  cases sync r <;> rfl

lemma gather_capStep_state_of_ok {stream : List Nat} {seq : Nat} {samples r : List Nat}
    (st : Gather.CapState) (h : Gather.attemptFrame stream = .ok seq samples r) :
    (Gather.capStep stream st).state = Gather.acceptState st seq samples := by
  rw [gather_capStep_ok st h]
  cases hr : read_exact 2 r with
  | none => rfl
  | some p =>
    obtain ⟨nxt, r2⟩ := p
    by_cases hm : nxt = MAGIC_B
    · simp only [if_pos hm]
      rfl
    · simp only [if_neg hm]
      exact gather_resync_state r2 _

lemma clip_capStep_state_of_ok {stream : List Nat} {seq gapCyc : Nat} {samples r : List Nat}
    (st : Clip.CapState) (h : Clip.attemptFrame stream = .ok seq gapCyc samples r) :
    (Clip.capStep stream st).state = Clip.acceptState st seq gapCyc samples := by
  rw [clip_capStep_ok st h]
  cases hr : read_exact 2 r with
  | none => rfl
  | some p =>
    obtain ⟨nxt, r2⟩ := p
    by_cases hm : nxt = MAGIC_B
    · simp only [if_pos hm]
      rfl
    · simp only [if_neg hm]
      exact clip_resync_state r2 _

lemma gather_attemptFrame_malformed (hdr rest : List Nat) (hh : hdr.length = 6)
    (hbad : le16At hdr 4 = 0 ∨ le16At hdr 4 > 512) :
    Gather.attemptFrame (hdr ++ rest) = .malformed rest := by
  simp only [Gather.attemptFrame, read_exact_of_length hdr _ hh]
  rw [if_pos (by simpa only [Gather.FRAME_SAMPLES] using hbad)]

lemma clip_attemptFrame_malformed (hdr rest : List Nat) (hh : hdr.length = 10)
    (hbad : le16At hdr 4 = 0 ∨ le16At hdr 4 > 16384) :
    Clip.attemptFrame (hdr ++ rest) = .malformed rest := by
  simp only [Clip.attemptFrame, read_exact_of_length hdr _ hh]
  rw [if_pos (by simpa only [Clip.FRAME_SAMPLES] using hbad)]

lemma decodeSamples12_lt : ∀ (p : List Nat), ∀ v ∈ decodeSamples12 p, v < 4096
  | [] => by simp [decodeSamples12]
  | [b] => by simp [decodeSamples12]
  | b0 :: b1 :: rest => by
    intro v hv
    simp only [decodeSamples12, List.mem_cons] at hv
    rcases hv with h | h
    · subst h
      exact lt_of_le_of_lt Nat.and_le_right (by norm_num)
    · exact decodeSamples12_lt rest v h

lemma rpcSamples_le (buf : List Nat) (count : Nat) :
    ∀ v ∈ Rpc.rpcSamples buf count, v ≤ 16383 := by
  intro v hv
  simp only [Rpc.rpcSamples, List.mem_map] at hv
  obtain ⟨i, -, rfl⟩ := hv
  exact Nat.and_le_right

lemma hexPairDecode_length : ∀ (l : List Nat), (hexPairDecode l).length = l.length / 2
  | [] => by simp [hexPairDecode]
  | [c] => by simp [hexPairDecode]
  | c1 :: c2 :: rest => by
    simp only [hexPairDecode, List.length_cons, hexPairDecode_length rest]
    omega

lemma rpc_parseBuf_crc (buf0 : List Nat)
    (hlen : ¬ (Rpc.strip21 buf0).length < 8)
    (hexact : (Rpc.strip21 buf0).length = 6 + le16At (Rpc.strip21 buf0) 0 * 2 + 2) :
    Rpc.parseBuf buf0
      = if crc16_ibm ((Rpc.strip21 buf0).take ((Rpc.strip21 buf0).length - 2))
            = le16At (Rpc.strip21 buf0) ((Rpc.strip21 buf0).length - 2)
        then (some (le32At (Rpc.strip21 buf0) 2),
              some (Rpc.rpcSamples (Rpc.strip21 buf0) (le16At (Rpc.strip21 buf0) 0)))
        else (none, none) := by
  unfold Rpc.parseBuf
  rw [if_neg hlen, if_neg (by omega :
    ¬ (Rpc.strip21 buf0).length ≠ 6 + le16At (Rpc.strip21 buf0) 0 * 2 + 2)]
  rw [ite_not]

lemma rpc_parseBuf_zero (buf0 : List Nat)
    (hlen8 : (Rpc.strip21 buf0).length = 8)
    (hcount : le16At (Rpc.strip21 buf0) 0 = 0)
    (hcrc : crc16_ibm ((Rpc.strip21 buf0).take 6) = le16At (Rpc.strip21 buf0) 6) :
    Rpc.parseBuf buf0 = (some (le32At (Rpc.strip21 buf0) 2), some []) := by
  rw [rpc_parseBuf_crc buf0 (by omega) (by omega)]
  have h6 : (Rpc.strip21 buf0).length - 2 = 6 := by omega
  rw [h6, if_pos hcrc, hcount]
  rfl

lemma ecg_parseBuf_badcount (buf0 : List Nat)
    (hlen : ¬ (Ecg.strip21 buf0).length < 7)
    (hbad : (Ecg.strip21 buf0).getD 0 0 = 0 ∨ (Ecg.strip21 buf0).getD 0 0 > 255) :
    Ecg.parseBuf buf0 = ([], []) := by
  unfold Ecg.parseBuf
  rw [if_neg hlen, if_pos (by simpa only [Ecg.MAX_SAMPLES] using hbad)]

lemma ecg_parseBuf_crc (buf0 : List Nat)
    (hlen : ¬ (Ecg.strip21 buf0).length < 7)
    (hc1 : (Ecg.strip21 buf0).getD 0 0 ≠ 0)
    (hc2 : (Ecg.strip21 buf0).getD 0 0 ≤ 255)
    (hexact : (Ecg.strip21 buf0).length
      = 1 + 4 + (Ecg.strip21 buf0).getD 0 0 * 3 + 2) :
    Ecg.parseBuf buf0
      = if crc16_ibm ((Ecg.strip21 buf0).take ((Ecg.strip21 buf0).length - 2))
            = (Ecg.strip21 buf0).getD ((Ecg.strip21 buf0).length - 2) 0
              + 256 * (Ecg.strip21 buf0).getD ((Ecg.strip21 buf0).length - 1) 0
        then Ecg.scanSamples ((Ecg.strip21 buf0).getD 0 0) (Ecg.strip21 buf0) 5
              (le32At (Ecg.strip21 buf0) 1)
        else ([], []) := by
  unfold Ecg.parseBuf
  rw [if_neg hlen,
    if_neg (by simp only [Ecg.MAX_SAMPLES]; omega),
    if_neg (by omega :
      ¬ (Ecg.strip21 buf0).length ≠ 1 + 4 + (Ecg.strip21 buf0).getD 0 0 * 3 + 2)]
  rw [ite_not]

lemma ecg_scan_head (k : Nat) (buf : List Nat) (off pt : Nat) :
    (Ecg.scanSamples (k + 1) buf off pt).1
      = le16At buf off
          :: (Ecg.scanSamples k buf (off + 3) (pt + buf.getD (off + 2) 0)).1 := by
  simp [Ecg.scanSamples]

/-! ### Claim theorems -/

/-- C1: for every candidate frame, the decoder accepts it only if the
16-bit CRC computed with the fixed per-format algorithm (CCITT 0x1021
init 0xFFFF over magic + header + payload for the serial format; IBM
0xA001 init 0 over the whole blob minus the trailing two checksum bytes
for the blob formats) equals the transmitted little-endian checksum, and
any mismatch causes rejection of the frame. -/
theorem claim_C1_crc_checked :
    (∀ hdr payload crcb rest : List Nat,
        hdr.length = 6 → le16At hdr 4 ≠ 0 → le16At hdr 4 ≤ 512 →
        payload.length = le16At hdr 4 * 2 → crcb.length = 2 →
        (Gather.attemptFrame (hdr ++ (payload ++ (crcb ++ rest)))
            = .ok (le32At hdr 0) (decodeSamples12 payload) rest
          ↔ crc16 (MAGIC_B ++ hdr ++ payload) = le16At crcb 0)
        ∧ (crc16 (MAGIC_B ++ hdr ++ payload) ≠ le16At crcb 0 →
            Gather.attemptFrame (hdr ++ (payload ++ (crcb ++ rest)))
              = .crcFail rest))
    ∧ (∀ buf0 : List Nat,
        ¬ (Rpc.strip21 buf0).length < 8 →
        (Rpc.strip21 buf0).length = 6 + le16At (Rpc.strip21 buf0) 0 * 2 + 2 →
        ((∃ s v, Rpc.parseBuf buf0 = (some s, some v))
          ↔ crc16_ibm ((Rpc.strip21 buf0).take ((Rpc.strip21 buf0).length - 2))
              = le16At (Rpc.strip21 buf0) ((Rpc.strip21 buf0).length - 2)))
    ∧ (∀ buf0 : List Nat,
        ¬ (Ecg.strip21 buf0).length < 7 →
        (Ecg.strip21 buf0).getD 0 0 ≠ 0 →
        (Ecg.strip21 buf0).getD 0 0 ≤ 255 →
        (Ecg.strip21 buf0).length = 1 + 4 + (Ecg.strip21 buf0).getD 0 0 * 3 + 2 →
        ((Ecg.parseBuf buf0).1 ≠ []
          ↔ crc16_ibm ((Ecg.strip21 buf0).take ((Ecg.strip21 buf0).length - 2))
              = (Ecg.strip21 buf0).getD ((Ecg.strip21 buf0).length - 2) 0
                + 256 * (Ecg.strip21 buf0).getD ((Ecg.strip21 buf0).length - 1) 0)) := by
  refine ⟨?_, ?_, ?_⟩
  · intro hdr payload crcb rest hh hn0 hn hp hc
    have hsplit := gather_attemptFrame_split hdr payload crcb rest hh hn0 hn hp hc
    constructor
    · rw [hsplit]
      by_cases hcrc : crc16 (MAGIC_B ++ hdr ++ payload) = le16At crcb 0
      · simp [hcrc]
      · simp [hcrc]
    · intro hne
      rw [hsplit, if_neg hne]
  · intro buf0 h1 h2
    rw [rpc_parseBuf_crc buf0 h1 h2]
    constructor
    · rintro ⟨s, v, hsv⟩
      by_contra hcrc
      rw [if_neg hcrc] at hsv
      simp at hsv
    · intro hcrc
      rw [if_pos hcrc]
      exact ⟨_, _, rfl⟩
  · intro buf0 h1 h2 h3 h4
    rw [ecg_parseBuf_crc buf0 h1 h2 h3 h4]
    constructor
    · intro hne
      by_contra hcrc
      rw [if_neg hcrc] at hne
      exact hne rfl
    · intro hcrc
      rw [if_pos hcrc]
      obtain ⟨k, hk⟩ : ∃ k, (Ecg.strip21 buf0).getD 0 0 = k + 1 :=
        ⟨(Ecg.strip21 buf0).getD 0 0 - 1, by omega⟩
      rw [hk, ecg_scan_head]
      simp

/-- Witness for C1 at a concrete accepted serial frame. -/
theorem claim_C1_crc_checked_w :
    (([7, 0, 0, 0, 1, 0] : List Nat).length = 6 ∧ le16At [7, 0, 0, 0, 1, 0] 4 ≠ 0)
    ∧ Gather.attemptFrame ([7, 0, 0, 0, 1, 0]
        ++ ([0x34, 0x12]
          ++ (le16enc (crc16 (MAGIC_B ++ [7, 0, 0, 0, 1, 0] ++ [0x34, 0x12])) ++ [])))
      = .ok (le32At [7, 0, 0, 0, 1, 0] 0) (decodeSamples12 [0x34, 0x12]) [] := by
  refine ⟨⟨by decide, by decide⟩, ?_⟩
  exact ((claim_C1_crc_checked.1 [7, 0, 0, 0, 1, 0] [0x34, 0x12]
    (le16enc (crc16 (MAGIC_B ++ [7, 0, 0, 0, 1, 0] ++ [0x34, 0x12]))) []
    (by decide) (by decide) (by decide) (by decide) (by decide)).1).mpr (by decide)

/-- C2 counterexample: the `RPC_capture.py` blob parser accepts a frame
whose declared sample count is zero.  The 8-byte all-zero blob declares
`count = 0`, matches the expected length `6 + 0*2 + 2`, and carries a
correct IBM CRC (0 over six zero bytes), so `parse_frame` returns
`(seq, [])` instead of failing — the claim that decode fails for a zero
count in every format, including the blob formats, is false. -/
theorem claim_C2_count_validated_cx :
    Rpc.parse_frame (List.replicate 8 0) = (some 0, some [])
    ∧ Rpc.parse_frame (List.replicate 8 0) ≠ (none, none) := by
  constructor
  · decide
  · decide

/-- C2 as amended: the serial formats and the interleaved-timestamp blob
format reject a declared count of 0 or above the configured maximum
immediately, with the decoder consuming only the header (the tail of the
stream is returned untouched, no payload read); the minimal blob format
(`RPC_capture.py`) performs no count bound check, and a count-0 blob of
matching length with a valid CRC is accepted with an empty sample list. -/
theorem claim_C2_count_validated_amended :
    (∀ hdr rest : List Nat, hdr.length = 6 →
        (le16At hdr 4 = 0 ∨ le16At hdr 4 > 512) →
        Gather.attemptFrame (hdr ++ rest) = .malformed rest)
    ∧ (∀ hdr rest : List Nat, hdr.length = 10 →
        (le16At hdr 4 = 0 ∨ le16At hdr 4 > 16384) →
        Clip.attemptFrame (hdr ++ rest) = .malformed rest)
    ∧ (∀ buf0 : List Nat, ¬ (Ecg.strip21 buf0).length < 7 →
        ((Ecg.strip21 buf0).getD 0 0 = 0 ∨ (Ecg.strip21 buf0).getD 0 0 > 255) →
        Ecg.parseBuf buf0 = ([], []))
    ∧ (∀ buf0 : List Nat, (Rpc.strip21 buf0).length = 8 →
        le16At (Rpc.strip21 buf0) 0 = 0 →
        crc16_ibm ((Rpc.strip21 buf0).take 6) = le16At (Rpc.strip21 buf0) 6 →
        Rpc.parseBuf buf0 = (some (le32At (Rpc.strip21 buf0) 2), some [])) :=
  ⟨gather_attemptFrame_malformed, clip_attemptFrame_malformed,
    ecg_parseBuf_badcount, rpc_parseBuf_zero⟩

/-- Witness for the amended C2 at a concrete zero-count serial header. -/
theorem claim_C2_count_validated_amended_w :
    (([0, 0, 0, 0, 0, 0] : List Nat).length = 6 ∧ le16At [0, 0, 0, 0, 0, 0] 4 = 0)
    ∧ Gather.attemptFrame ([0, 0, 0, 0, 0, 0] ++ [9, 9, 9]) = .malformed [9, 9, 9] := by
  refine ⟨⟨by decide, by decide⟩, ?_⟩
  exact claim_C2_count_validated_amended.1 [0, 0, 0, 0, 0, 0] [9, 9, 9]
    (by decide) (Or.inl (by decide))

/-- C3 counterexample: a source that delivers the magic and a valid
header and then stalls makes the decode attempt raise the timeout, and
the capture loop terminates with the state unchanged — the synchronizer
is not re-entered (a resync would be a `cont` outcome produced through
`sync`; the loop result is `timeout`, which `runLoop` treats as the end
of the session, matching the `except TimeoutError` handler that ends
`run_capture` in `ADC_csv_gather.py`). -/
theorem claim_C3_partial_timeout_cx :
    Gather.capStep [0, 0, 0, 0, 1, 0] Gather.initState = .timeout Gather.initState
    ∧ Gather.runLoop 5 [0, 0, 0, 0, 1, 0] Gather.initState = Gather.initState := by
  constructor
  · decide
  · decide

/-- C3 as amended: when the source stalls mid-frame (either inside the
header or inside the payload/CRC), the decode attempt fails with the
timeout and the timeout terminates the capture loop; no resync happens
and the session state is left as it was. -/
theorem claim_C3_partial_timeout_amended :
    (∀ (st : Gather.CapState) (stream : List Nat), stream.length < 6 →
        Gather.capStep stream st = .timeout st)
    ∧ (∀ (st : Gather.CapState) (hdr r : List Nat),
        hdr.length = 6 → le16At hdr 4 ≠ 0 → le16At hdr 4 ≤ 512 →
        r.length < le16At hdr 4 * 2 + 2 →
        Gather.capStep (hdr ++ r) st = .timeout st)
    ∧ (∀ (fuel : Nat) (stream : List Nat) (st st2 : Gather.CapState),
        Gather.capStep stream st = .timeout st2 →
        Gather.runLoop (fuel + 1) stream st = st2) :=
  ⟨fun st stream h => gather_capStep_timeoutErr st (gather_attemptFrame_hdr_stall stream h),
    fun st hdr r hh h0 h5 hs =>
      gather_capStep_timeoutErr st (gather_attemptFrame_stall hdr r hh h0 h5 hs),
    fun fuel stream st st2 h => gather_runLoop_timeout fuel stream st st2 h⟩

/-- Witness for the amended C3: header delivered, payload missing. -/
theorem claim_C3_partial_timeout_amended_w :
    (([0, 0, 0, 0, 1, 0] : List Nat).length = 6
      ∧ ([] : List Nat).length < le16At [0, 0, 0, 0, 1, 0] 4 * 2 + 2)
    ∧ Gather.capStep ([0, 0, 0, 0, 1, 0] ++ []) Gather.initState
        = .timeout Gather.initState := by
  refine ⟨⟨by decide, by decide⟩, ?_⟩
  exact claim_C3_partial_timeout_amended.2.1 Gather.initState [0, 0, 0, 0, 1, 0] []
    (by decide) (by decide) (by decide) (by decide)

lemma gather_acceptState_fields (st : Gather.CapState) (seq : Nat) (samples : List Nat) :
    (Gather.acceptState st seq samples).seqErrors
        = st.seqErrors + (if gapFlag st.lastSeq seq then 1 else 0)
    ∧ (Gather.acceptState st seq samples).lastSeq = some seq
    ∧ (Gather.acceptState st seq samples).accepted = st.accepted ++ [(seq, samples)]
    ∧ (Gather.acceptState st seq samples).total = st.total + samples.length :=
  ⟨rfl, rfl, rfl, rfl⟩

lemma clip_acceptState_fields (st : Clip.CapState) (seq gapCyc : Nat) (samples : List Nat) :
    (Clip.acceptState st seq gapCyc samples).seqErrors
        = st.seqErrors + (if gapFlag st.lastSeq seq then 1 else 0)
    ∧ (Clip.acceptState st seq gapCyc samples).lastSeq = some seq
    ∧ (Clip.acceptState st seq gapCyc samples).accepted
        = st.accepted ++ [(seq, gapCyc, samples)]
    ∧ (Clip.acceptState st seq gapCyc samples).total = st.total + samples.length :=
  ⟨rfl, rfl, rfl, rfl⟩

lemma gapFlag_count_iff (e : Nat) (last : Option Nat) (seq : Nat) :
    ((e + (if gapFlag last seq then 1 else 0) = e + 1) ↔ gapSpec last seq)
    ∧ ((e + (if gapFlag last seq then 1 else 0) = e) ↔ ¬ gapSpec last seq) := by
  by_cases hg : gapFlag last seq
  · have hsp := (gapFlag_iff last seq).mp hg
    refine ⟨iff_of_true (by rw [if_pos hg]) hsp, iff_of_false ?_ (not_not_intro hsp)⟩
    rw [if_pos hg]
    omega
  · have hsp : ¬ gapSpec last seq := fun h => hg ((gapFlag_iff last seq).mpr h)
    refine ⟨iff_of_false ?_ hsp, iff_of_true ?_ hsp⟩
    · rw [if_neg hg]
      omega
    · rw [if_neg hg]
      omega

/-- C4: a gap is reported for an accepted frame exactly when some frame
was accepted before and the new sequence number differs from
`(last_accepted + 1) mod 2^32`; the first accepted frame never reports a
gap (no previous value, `gapSpec none` is absurd), and 0 following
0xFFFFFFFF reports none (wraparound).  Stated for the serial loop of
`ADC_csv_gather.py` and the blob loop of `RPC_capture.py`. -/
theorem claim_C4_gap_detection :
    (∀ (stream : List Nat) (st : Gather.CapState) (seq : Nat) (samples : List Nat),
        (Gather.capStep stream st).state.accepted = st.accepted ++ [(seq, samples)] →
        (((Gather.capStep stream st).state.seqErrors = st.seqErrors + 1
            ↔ gapSpec st.lastSeq seq)
          ∧ ((Gather.capStep stream st).state.seqErrors = st.seqErrors
            ↔ ¬ gapSpec st.lastSeq seq)))
    ∧ (∀ (st : Rpc.RpcState) (resp : List Nat) (seq : Nat) (samples : List Nat),
        (Rpc.rpcStep st resp).accepted = st.accepted ++ [(seq, samples)] →
        (((Rpc.rpcStep st resp).seqErrors = st.seqErrors + 1
            ↔ gapSpec st.lastSeq seq)
          ∧ ((Rpc.rpcStep st resp).seqErrors = st.seqErrors
            ↔ ¬ gapSpec st.lastSeq seq)))
    ∧ (∀ seq : Nat, ¬ gapSpec none seq)
    ∧ ¬ gapSpec (some 4294967295) 0 := by
  refine ⟨?_, ?_, ?_, ?_⟩
  · intro stream st seq samples hacc
    rcases gather_step_inv stream st with ⟨ha, -, -, -⟩ | ⟨s2, v2, hst⟩
    · rw [ha] at hacc
      exact absurd hacc (by simp)
    · rw [hst, (gather_acceptState_fields st s2 v2).2.2.1] at hacc
      have hpair := List.append_cancel_left hacc
      have hs2 : s2 = seq := congrArg Prod.fst (List.head_eq_of_cons_eq hpair)
      rw [hst, (gather_acceptState_fields st s2 v2).1, hs2]
      exact gapFlag_count_iff st.seqErrors st.lastSeq seq
  · intro st resp seq samples hacc
    rcases rpc_step_inv st resp with h | ⟨s2, v2, -, h⟩
    · rw [h] at hacc
      exact absurd hacc (by simp)
    · rw [h] at hacc
      simp only at hacc
      have hpair := List.append_cancel_left hacc
      have hs2 : s2 = seq := congrArg Prod.fst (List.head_eq_of_cons_eq hpair)
      rw [h]
      simp only [hs2]
      exact gapFlag_count_iff st.seqErrors st.lastSeq seq
  · rintro seq ⟨l, hl, -⟩
    exact Option.noConfusion hl
  · rintro ⟨l, hl, hne⟩
    injection hl with hl2
    subst hl2
    exact hne (by norm_num)

/-- Witness for C4: concrete accepted frame with a genuine gap (last
accepted 5, new frame 7). -/
theorem claim_C4_gap_detection_w :
    ((Gather.capStep (frameBody 7 [1, 0])
        { lastSeq := some 5, total := 0, badCrc := 0, seqErrors := 0,
          accepted := [] }).state.accepted
      = [] ++ [(7, [1])])
    ∧ (Gather.capStep (frameBody 7 [1, 0])
        { lastSeq := some 5, total := 0, badCrc := 0, seqErrors := 0,
          accepted := [] }).state.seqErrors
      = 0 + 1 := by
  refine ⟨by decide, ?_⟩
  exact ((claim_C4_gap_detection.1 (frameBody 7 [1, 0])
    { lastSeq := some 5, total := 0, badCrc := 0, seqErrors := 0, accepted := [] }
    7 [1] (by decide)).1).mpr ⟨5, rfl, by decide⟩

/-- C5: delivery is independent of the sequence state — for any two
session states, one iteration of the capture loop on the same stream
delivers exactly the same new frames (so a frame whose sequence number is
discontiguous is delivered exactly as a contiguous one, in both serial
scripts); and an accepted frame with a gap increments the gap counter
while its full payload is still delivered (the sample total grows by the
full frame length). -/
theorem claim_C5_gap_not_failure :
    (∀ (stream : List Nat) (st1 st2 : Gather.CapState),
        (Gather.capStep stream st1).state.accepted.drop st1.accepted.length
          = (Gather.capStep stream st2).state.accepted.drop st2.accepted.length)
    ∧ (∀ (stream : List Nat) (st1 st2 : Clip.CapState),
        (Clip.capStep stream st1).state.accepted.drop st1.accepted.length
          = (Clip.capStep stream st2).state.accepted.drop st2.accepted.length)
    ∧ (∀ (stream : List Nat) (st : Gather.CapState) (seq : Nat) (samples : List Nat),
        (Gather.capStep stream st).state.accepted = st.accepted ++ [(seq, samples)] →
        gapSpec st.lastSeq seq →
        (Gather.capStep stream st).state.seqErrors = st.seqErrors + 1
          ∧ (Gather.capStep stream st).state.total = st.total + samples.length) := by
  refine ⟨?_, ?_, ?_⟩
  · intro stream st1 st2
    cases h : Gather.attemptFrame stream with
    | timeoutErr =>
      rw [gather_capStep_timeoutErr st1 h, gather_capStep_timeoutErr st2 h]
      simp [Gather.StepRes.state, List.drop_length]
    | malformed r =>
      rw [gather_capStep_malformed st1 h, gather_capStep_malformed st2 h,
        gather_resync_state, gather_resync_state]
      simp [List.drop_length]
    | crcFail r =>
      rw [gather_capStep_crcFail st1 h, gather_capStep_crcFail st2 h,
        gather_resync_state, gather_resync_state]
      simp [List.drop_length]
    | ok seq samples r =>
      rw [gather_capStep_state_of_ok st1 h, gather_capStep_state_of_ok st2 h,
        (gather_acceptState_fields st1 seq samples).2.2.1,
        (gather_acceptState_fields st2 seq samples).2.2.1,
        List.drop_left, List.drop_left]
  · intro stream st1 st2
    cases h : Clip.attemptFrame stream with
    | timeoutErr =>
      rw [clip_capStep_timeoutErr st1 h, clip_capStep_timeoutErr st2 h]
      simp [Clip.StepRes.state, List.drop_length]
    | malformed r =>
      rw [clip_capStep_malformed st1 h, clip_capStep_malformed st2 h,
        clip_resync_state, clip_resync_state]
      simp [List.drop_length]
    | crcFail r =>
      rw [clip_capStep_crcFail st1 h, clip_capStep_crcFail st2 h,
        clip_resync_state, clip_resync_state]
      simp [List.drop_length]
    | ok seq gapCyc samples r =>
      rw [clip_capStep_state_of_ok st1 h, clip_capStep_state_of_ok st2 h,
        (clip_acceptState_fields st1 seq gapCyc samples).2.2.1,
        (clip_acceptState_fields st2 seq gapCyc samples).2.2.1,
        List.drop_left, List.drop_left]
  · intro stream st seq samples hacc hgap
    rcases gather_step_inv stream st with ⟨ha, -, -, -⟩ | ⟨s2, v2, hst⟩
    · rw [ha] at hacc
      exact absurd hacc (by simp)
    · rw [hst, (gather_acceptState_fields st s2 v2).2.2.1] at hacc
      have hpair := List.append_cancel_left hacc
      have hs2 : s2 = seq := congrArg Prod.fst (List.head_eq_of_cons_eq hpair)
      have hv2 : v2 = samples := congrArg Prod.snd (List.head_eq_of_cons_eq hpair)
      subst hs2
      subst hv2
      constructor
      · rw [hst, (gather_acceptState_fields st s2 v2).1,
          if_pos ((gapFlag_iff st.lastSeq s2).mpr hgap)]
      · rw [hst, (gather_acceptState_fields st s2 v2).2.2.2]

/-- Witness for C5 at a concrete discontiguous frame: last accepted 5,
new frame 7, two payload bytes. -/
theorem claim_C5_gap_not_failure_w :
    ((Gather.capStep (frameBody 7 [1, 0])
        { lastSeq := some 5, total := 3, badCrc := 0, seqErrors := 0,
          accepted := [] }).state.accepted
      = [] ++ [(7, [1])])
    ∧ ((Gather.capStep (frameBody 7 [1, 0])
        { lastSeq := some 5, total := 3, badCrc := 0, seqErrors := 0,
          accepted := [] }).state.seqErrors = 0 + 1
      ∧ (Gather.capStep (frameBody 7 [1, 0])
        { lastSeq := some 5, total := 3, badCrc := 0, seqErrors := 0,
          accepted := [] }).state.total = 3 + [(1 : Nat)].length) := by
  refine ⟨by decide, ?_⟩
  exact claim_C5_gap_not_failure.2.2 (frameBody 7 [1, 0])
    { lastSeq := some 5, total := 3, badCrc := 0, seqErrors := 0, accepted := [] }
    7 [1] (by decide) ⟨5, rfl, by decide⟩

/-- C6: the sequence-state invariant — one loop iteration either rejects
the attempt and leaves `last_seq` (and the delivered output) unchanged,
or accepts a frame and sets `last_seq` to exactly the sequence
number of that frame, unconditionally, gap or not.  Holds for both serial loops and the
blob loop of `RPC_capture.py` (whose rejections include empty
responses). -/
theorem claim_C6_lastseq_update :
    (∀ (stream : List Nat) (st : Gather.CapState),
        ((Gather.capStep stream st).state.accepted = st.accepted
          ∧ (Gather.capStep stream st).state.lastSeq = st.lastSeq)
        ∨ ∃ seq samples,
            (Gather.capStep stream st).state.accepted = st.accepted ++ [(seq, samples)]
            ∧ (Gather.capStep stream st).state.lastSeq = some seq)
    ∧ (∀ (stream : List Nat) (st : Clip.CapState),
        ((Clip.capStep stream st).state.accepted = st.accepted
          ∧ (Clip.capStep stream st).state.lastSeq = st.lastSeq)
        ∨ ∃ seq gapCyc samples,
            (Clip.capStep stream st).state.accepted
              = st.accepted ++ [(seq, gapCyc, samples)]
            ∧ (Clip.capStep stream st).state.lastSeq = some seq)
    ∧ (∀ (st : Rpc.RpcState) (resp : List Nat),
        ((Rpc.rpcStep st resp).accepted = st.accepted
          ∧ (Rpc.rpcStep st resp).lastSeq = st.lastSeq)
        ∨ ∃ seq samples,
            (Rpc.rpcStep st resp).accepted = st.accepted ++ [(seq, samples)]
            ∧ (Rpc.rpcStep st resp).lastSeq = some seq) := by
  refine ⟨?_, ?_, ?_⟩
  · intro stream st
    rcases gather_step_inv stream st with ⟨ha, hl, -, -⟩ | ⟨seq, samples, hst⟩
    · exact Or.inl ⟨ha, hl⟩
    · exact Or.inr ⟨seq, samples, by rw [hst]; exact rfl, by rw [hst]; exact rfl⟩
  · intro stream st
    rcases clip_step_inv stream st with ⟨ha, hl, -, -⟩ | ⟨seq, gapCyc, samples, hst⟩
    · exact Or.inl ⟨ha, hl⟩
    · exact Or.inr ⟨seq, gapCyc, samples, by rw [hst]; exact rfl, by rw [hst]; exact rfl⟩
  · intro st resp
    rcases rpc_step_inv st resp with h | ⟨seq, samples, -, h⟩
    · exact Or.inl ⟨by rw [h], by rw [h]⟩
    · exact Or.inr ⟨seq, samples, by rw [h], by rw [h]⟩

/-- C7 counterexample: the interleaved-timestamp parser of
`RPC_sample_csv.py` applies no bit-depth mask.  A structurally valid
frame whose single 16-bit sample has all bits set is delivered as 0xFFFF,
not 0xFFF — the claim that masking is applied in the interleaved format
as well is false. -/
theorem claim_C7_bit_masking_cx :
    Ecg.parse_frame ([1, 0, 0, 0, 0, 0xFF, 0xFF, 0]
        ++ le16enc (crc16_ibm [1, 0, 0, 0, 0, 0xFF, 0xFF, 0]))
      = ([0xFFFF], [0])
    ∧ (0xFFFF : Nat) ≠ 0xFFF := by
  constructor
  · decide
  · decide

/-- C7 as amended: the serial decoders mask every delivered sample to 12
bits (`s & 0xFFF`, all-ones container gives 0xFFF) and the minimal blob
decoder masks to 14 bits (`& 0x3FFF`, all-ones gives 0x3FFF), but the
interleaved-timestamp parser delivers the raw 16-bit container value:
the head of its sample list is the unmasked little-endian 16-bit read. -/
theorem claim_C7_bit_masking_amended :
    (∀ (p : List Nat), ∀ v ∈ decodeSamples12 p, v < 4096)
    ∧ decodeSamples12 [0xFF, 0xFF] = [0xFFF]
    ∧ (∀ (buf : List Nat) (count : Nat), ∀ v ∈ Rpc.rpcSamples buf count, v ≤ 16383)
    ∧ Rpc.rpcSamples [0, 0, 0, 0, 0, 0, 0xFF, 0xFF] 1 = [0x3FFF]
    ∧ (∀ (k : Nat) (buf : List Nat) (off pt : Nat),
        (Ecg.scanSamples (k + 1) buf off pt).1.headD 0 = le16At buf off) := by
  refine ⟨decodeSamples12_lt, by decide, rpcSamples_le, by decide, ?_⟩
  intro k buf off pt
  rw [ecg_scan_head]
  rfl

/-- Witness for the amended C7 at concrete all-ones containers. -/
theorem claim_C7_bit_masking_amended_w :
    ((0xFFF : Nat) ∈ decodeSamples12 [0xFF, 0xFF] ∧ (0xFFF : Nat) < 4096)
    ∧ ((0x3FFF : Nat) ∈ Rpc.rpcSamples [0, 0, 0, 0, 0, 0, 0xFF, 0xFF] 1
      ∧ (0x3FFF : Nat) ≤ 16383) := by
  refine ⟨⟨by decide, ?_⟩, ⟨by decide, ?_⟩⟩
  · exact claim_C7_bit_masking_amended.1 [0xFF, 0xFF] 0xFFF (by decide)
  · exact claim_C7_bit_masking_amended.2.2.1 [0, 0, 0, 0, 0, 0, 0xFF, 0xFF] 1 0x3FFF
      (by decide)

/-- C8: the failure accounting does not work as claimed.  In the
`RPC_capture.py` loop the `bad` counter can never move — `parse_frame`
returns both components `None` on every failure, so every rejected or
empty response is counted in `empty` (first conjunct: `bad` is invariant
under any step; second conjunct: a structurally valid blob with a wrong
CRC is counted as `empty`, not `bad`).  The `RPC_sample_csv.py` loop has
a single `bad` counter that also counts empty responses.  The serial
loop counts only CRC mismatches: a malformed header (zero count)
rejection leaves `bad_crc` (and the whole state) unchanged. -/
theorem claim_C8_failure_counts :
    (∀ (st : Rpc.RpcState) (resp : List Nat), (Rpc.rpcStep st resp).bad = st.bad)
    ∧ Rpc.rpcStep Rpc.initState [1, 0, 0, 0, 0, 0, 5, 0, 0, 0]
        = { Rpc.initState with empty := 1 }
    ∧ Rpc.parse_frame [1, 0, 0, 0, 0, 0, 5, 0, 0, 0] = (none, none)
    ∧ (Ecg.ecgStep Ecg.initState []).bad = 1
    ∧ Gather.capStep ([0, 0, 0, 0, 0, 0] ++ MAGIC_B) Gather.initState
        = .cont [] Gather.initState := by
  refine ⟨?_, by decide, by decide, by decide, by decide⟩
  intro st resp
  rcases rpc_step_inv st resp with h | ⟨seq, samples, -, h⟩
  · rw [h]
  · rw [h]

/-- C9 counterexample: the claim quantifies over every garbage preamble,
but garbage containing the magic byte pair defeats the resync.  With
garbage `[0x5A, 0xA5, 0, 0]` the synchronizer locks onto the pair inside
the garbage, consumes the real magic and part of the first frame as a
bogus header, rejects it, and resynchronizes only at the second frame:
of the two valid frames (sequence 0 and sequence 1) only the second is
delivered — one valid frame is lost to the garbage. -/
theorem claim_C9_resync_skips_garbage_cx :
    (Gather.run_capture 10
        ([0x5A, 0xA5, 0, 0] ++ MAGIC_B ++ frameBody 0 [0, 0]
          ++ MAGIC_B ++ frameBody 1 [7, 0])).map Gather.CapState.accepted
      = some [(1, [7])] := by
  decide

/-- C9 as amended: for every garbage preamble in which the magic pair
`0x5A 0xA5` does not occur, and any two well-formed frames, the
streaming loop of `ADC_csv_gather.py` skips the garbage byte by byte,
locks on the first magic, and decodes and delivers both frames — zero
frames lost. -/
theorem claim_C9_resync_skips_garbage_amended :
    ∀ (fuel : Nat) (garbage : List Nat) (s1 s2 : Nat) (p1 p2 : List Nat),
      lockFree none garbage = true →
      s1 < 4294967296 → p1.length % 2 = 0 → p1.length ≠ 0 → p1.length ≤ 1024 →
      s2 < 4294967296 → p2.length % 2 = 0 → p2.length ≠ 0 → p2.length ≤ 1024 →
      (Gather.run_capture (fuel + 2)
          (garbage ++ (MAGIC_B ++ (frameBody s1 p1 ++ (MAGIC_B ++ frameBody s2 p2))))).map
        Gather.CapState.accepted
        = some [(s1, decodeSamples12 p1), (s2, decodeSamples12 p2)] :=
  fun fuel g s1 s2 p1 p2 hg hs1 he1 hn1 hl1 hs2 he2 hn2 hl2 =>
    gather_two_frames fuel g s1 s2 p1 p2 hg hs1 he1 hn1 hl1 hs2 he2 hn2 hl2

/-- Witness for the amended C9 at concrete garbage and frames. -/
theorem claim_C9_resync_skips_garbage_amended_w :
    lockFree none [1, 2, 3] = true
    ∧ (Gather.run_capture (0 + 2)
          ([1, 2, 3] ++ (MAGIC_B ++ (frameBody 0 [0, 0]
            ++ (MAGIC_B ++ frameBody 1 [7, 0]))))).map Gather.CapState.accepted
        = some [(0, decodeSamples12 [0, 0]), (1, decodeSamples12 [7, 0])] :=
  ⟨by decide,
    claim_C9_resync_skips_garbage_amended 0 [1, 2, 3] 0 1 [0, 0] [7, 0]
      (by decide) (by decide) (by decide) (by decide) (by decide)
      (by decide) (by decide) (by decide) (by decide)⟩

/-- C10: both blob parsers first reinterpret a non-empty bytes response
of even length consisting solely of ASCII hex digits as hex text
(`bytes.fromhex`), so such a response is parsed from the decoded buffer,
which is never the raw response itself (the decoded buffer has half the
length); every other bytes response is parsed from the raw bytes
directly. -/
theorem claim_C10_hex_reinterpretation :
    (∀ resp : List Nat, isHexText resp = true →
        Rpc.parse_frame resp = Rpc.parseBuf (hexPairDecode resp)
        ∧ Ecg.parse_frame resp = Ecg.parseBuf (hexPairDecode resp)
        ∧ hexPairDecode resp ≠ resp)
    ∧ (∀ resp : List Nat, resp ≠ [] → isHexText resp = false →
        Rpc.parse_frame resp = Rpc.parseBuf resp
        ∧ Ecg.parse_frame resp = Ecg.parseBuf resp) := by
  constructor
  · intro resp hhex
    cases resp with
    | nil => simp [isHexText] at hhex
    | cons a t =>
      have hnorm : normalizeResp (a :: t) = hexPairDecode (a :: t) := by
        unfold normalizeResp
        rw [if_pos hhex]
      refine ⟨?_, ?_, ?_⟩
      · unfold Rpc.parse_frame
        rw [if_neg (by simp), hnorm]
      · unfold Ecg.parse_frame
        rw [if_neg (by simp), hnorm]
      · intro heq
        have hl := congrArg List.length heq
        rw [hexPairDecode_length] at hl
        simp only [List.length_cons] at hl
        omega
  · intro resp hne hnothex
    have hnorm : normalizeResp resp = resp := by
      unfold normalizeResp
      rw [if_neg (by simp [hnothex])]
    constructor
    · unfold Rpc.parse_frame
      rw [if_neg (by simp [hne]), hnorm]
    · unfold Ecg.parse_frame
      rw [if_neg (by simp [hne]), hnorm]

/-- Witness for C10: the hex text "01" is parsed from its decoded byte,
and a non-hex response is parsed raw. -/
theorem claim_C10_hex_reinterpretation_w :
    (isHexText [0x30, 0x31] = true
      ∧ Rpc.parse_frame [0x30, 0x31] = Rpc.parseBuf (hexPairDecode [0x30, 0x31]))
    ∧ (([1, 2, 3] : List Nat) ≠ [] ∧ isHexText [1, 2, 3] = false
      ∧ Rpc.parse_frame [1, 2, 3] = Rpc.parseBuf [1, 2, 3]) := by
  refine ⟨⟨by decide, ?_⟩, by decide, by decide, ?_⟩
  · exact (claim_C10_hex_reinterpretation.1 [0x30, 0x31] (by decide)).1
  · exact (claim_C10_hex_reinterpretation.2 [1, 2, 3] (by decide) (by decide)).1
